import Mathlib

/-!
Verification of the request authentication / signing subsystem and the
WebSocket listen-key lifecycle manager of a Binance futures client library.

The Rust source is shallowly embedded:
* `HashMap<String, String>` parameter sets become association lists
  (`List (String × String)`); `HashMap::insert` becomes `hashInsert`, which
  replaces the entry for an existing key in place and otherwise appends.
  The list order stands for the map's iteration order.
* `Signer::sign` (HMAC-SHA256 via the `hmac`/`sha2` crates, hex-encoded by
  `hex::encode`) is embedded as an executable HMAC-SHA256 over byte lists
  (`List Nat`, each byte reduced mod 256) together with lowercase hex
  encoding, exactly following FIPS 180-4 / RFC 2104, which is the contract
  of those crates.
* Async HTTP methods are embedded as pure functions returning either the
  `HttpRequest` they would dispatch or the `BinanceError` they return
  before dispatching anything.
* `Instant` / `Duration` become `Nat` milliseconds; `Instant::elapsed`
  becomes truncated subtraction `now - t` with the current instant passed
  explicitly.  Each network call of the listen-key manager takes the
  outcome (`Except BinanceError _`) the transport would produce, and the
  functions additionally return the number of transport calls performed.
* `serde_json::Value` becomes the inductive `Json` (numbers as `Int`,
  which covers every integral field of the stream payload types), and the
  derived `Deserialize` instances of the stream payload structs become
  explicit decoders.
-/

namespace Binance

/-! ## Bytes, SHA-256, HMAC-SHA256, hex (the `sha2`/`hmac`/`hex` crates) -/

/-- Bytes are `Nat`s; every byte produced by the digest is reduced mod 256. -/
abbrev Bytes := List Nat

/-- Truncate to a 32-bit word. -/
def w32 (n : Nat) : Nat := n % 4294967296

/-- 32-bit right rotation. -/
def rotr (x n : Nat) : Nat := w32 ((x >>> n) ||| (x <<< (32 - n)))

/-- SHA-256 round constants. -/
def shaK : List Nat :=
  [1116352408, 1899447441, 3049323471, 3921009573, 961987163,
   1508970993, 2453635748, 2870763221, 3624381080, 310598401,
   607225278, 1426881987, 1925078388, 2162078206, 2614888103,
   3248222580, 3835390401, 4022224774, 264347078, 604807628,
   770255983, 1249150122, 1555081692, 1996064986, 2554220882,
   2821834349, 2952996808, 3210313671, 3336571891, 3584528711,
   113926993, 338241895, 666307205, 773529912, 1294757372,
   1396182291, 1695183700, 1986661051, 2177026350, 2456956037,
   2730485921, 2820302411, 3259730800, 3345764771, 3516065817,
   3600352804, 4094571909, 275423344, 430227734, 506948616,
   659060556, 883997877, 958139571, 1322822218, 1537002063,
   1747873779, 1955562222, 2024104815, 2227730452, 2361852424,
   2428436474, 2756734187, 3204031479, 3329325298]

/-- SHA-256 working state: eight 32-bit hash words. -/
structure ShaState where
  a : Nat
  b : Nat
  c : Nat
  d : Nat
  e : Nat
  f : Nat
  g : Nat
  h : Nat

/-- SHA-256 initial hash value. -/
def shaInit : ShaState :=
  ⟨1779033703, 3144134277, 1013904242, 2773480762,
   1359893119, 2600822924, 528734635, 1541459225⟩

/-- Big-endian serialization of a 32-bit word into four bytes. -/
def word32ToBytes (x : Nat) : Bytes :=
  [x / 16777216 % 256, x / 65536 % 256, x / 256 % 256, x % 256]

/-- Big-endian serialization of a 64-bit word into eight bytes. -/
def word64ToBytes (x : Nat) : Bytes :=
  [x / 72057594037927936 % 256, x / 281474976710656 % 256,
   x / 1099511627776 % 256, x / 4294967296 % 256,
   x / 16777216 % 256, x / 65536 % 256, x / 256 % 256, x % 256]

/-- Assemble big-endian 32-bit words from bytes, four bytes at a time
(`fuel` bounds the recursion; call it with the list length). -/
def bytesToWordsAux : Nat → Bytes → List Nat
  | 0, _ => []
  | _ + 1, [] => []
  | fuel + 1, l =>
      (l.take 4).foldl (fun acc b => acc * 256 + b) 0 :: bytesToWordsAux fuel (l.drop 4)

def bytesToWords (l : Bytes) : List Nat := bytesToWordsAux l.length l

/-- Message-schedule small sigma functions. -/
def ssig0 (x : Nat) : Nat := rotr x 7 ^^^ rotr x 18 ^^^ (x >>> 3)

def ssig1 (x : Nat) : Nat := rotr x 17 ^^^ rotr x 19 ^^^ (x >>> 10)

/-- Extend the 16 block words to the 64 schedule words.  The accumulator
holds the schedule so far in reverse, so `W[t-2]` is entry 1, `W[t-7]`
entry 6, `W[t-15]` entry 14 and `W[t-16]` entry 15. -/
def extendSchedule : Nat → List Nat → List Nat
  | 0, acc => acc
  | n + 1, acc =>
      let w := w32 (ssig1 (acc.getD 1 0) + acc.getD 6 0 + ssig0 (acc.getD 14 0) + acc.getD 15 0)
      extendSchedule n (w :: acc)

/-- The 64-word message schedule of one 64-byte block. -/
def schedule (block : Bytes) : List Nat :=
  (extendSchedule 48 (bytesToWords block).reverse).reverse

/-- One SHA-256 round. -/
def shaRound (st : ShaState) (kw : Nat × Nat) : ShaState :=
  let s1 := rotr st.e 6 ^^^ rotr st.e 11 ^^^ rotr st.e 25
  let ch := (st.e &&& st.f) ^^^ ((st.e ^^^ 4294967295) &&& st.g)
  let temp1 := w32 (st.h + s1 + ch + kw.1 + kw.2)
  let s0 := rotr st.a 2 ^^^ rotr st.a 13 ^^^ rotr st.a 22
  let maj := (st.a &&& st.b) ^^^ (st.a &&& st.c) ^^^ (st.b &&& st.c)
  let temp2 := w32 (s0 + maj)
  ⟨w32 (temp1 + temp2), st.a, st.b, st.c, w32 (st.d + temp1), st.e, st.f, st.g⟩

/-- Compress one 64-byte block into the running hash state. -/
def shaCompress (st : ShaState) (block : Bytes) : ShaState :=
  let r := (List.zip shaK (schedule block)).foldl shaRound st
  ⟨w32 (st.a + r.a), w32 (st.b + r.b), w32 (st.c + r.c), w32 (st.d + r.d),
   w32 (st.e + r.e), w32 (st.f + r.f), w32 (st.g + r.g), w32 (st.h + r.h)⟩

/-- SHA-256 padding: append `0x80`, zeros, and the 64-bit big-endian bit
length, reaching a multiple of 64 bytes. -/
def shaPad (msg : Bytes) : Bytes :=
  let rem := (msg.length + 1) % 64
  let zeros := if rem ≤ 56 then 56 - rem else 120 - rem
  msg ++ 128 :: List.replicate zeros 0 ++ word64ToBytes (msg.length * 8)

/-- Split a padded message into 64-byte blocks (`fuel` bounds the recursion). -/
def toBlocksAux : Nat → Bytes → List Bytes
  | 0, _ => []
  | _ + 1, [] => []
  | fuel + 1, l => l.take 64 :: toBlocksAux fuel (l.drop 64)

def toBlocks (l : Bytes) : List Bytes := toBlocksAux l.length l

/-- Serialize the final state into the 32-byte digest. -/
def digestBytes (st : ShaState) : Bytes :=
  word32ToBytes st.a ++ word32ToBytes st.b ++ word32ToBytes st.c ++ word32ToBytes st.d ++
  word32ToBytes st.e ++ word32ToBytes st.f ++ word32ToBytes st.g ++ word32ToBytes st.h

/-- SHA-256 of a byte string (FIPS 180-4), the digest function used by the
`sha2` crate's `Sha256`. -/
def sha256 (msg : Bytes) : Bytes :=
  digestBytes ((toBlocks (shaPad msg)).foldl shaCompress shaInit)

/-- HMAC-SHA256 (RFC 2104), the algorithm of the `hmac` crate's
`Hmac<Sha256>`.  Keys longer than the 64-byte block are first hashed;
`new_from_slice` accepts any key length, so the embedded function is total. -/
def hmacSha256 (key msg : Bytes) : Bytes :=
  let key1 := if 64 < key.length then sha256 key else key
  let key0 := key1 ++ List.replicate (64 - key1.length) 0
  let ipad := key0.map (fun b => b ^^^ 0x36)
  let opad := key0.map (fun b => b ^^^ 0x5c)
  sha256 (opad ++ sha256 (ipad ++ msg))

/-- Lowercase hexadecimal digit, as produced by `hex::encode`. -/
def hexDigitChar (n : Nat) : Char :=
  if n < 10 then Char.ofNat (48 + n) else Char.ofNat (87 + n)

/-- `hex::encode`: two lowercase hex digits per byte. -/
def hexEncode (l : Bytes) : String :=
  ⟨(l.map (fun b => [hexDigitChar (b / 16), hexDigitChar (b % 16)])).flatten⟩

/-- UTF-8 encoding of one character (what `str::as_bytes` exposes). -/
def utf8EncodeCharBytes (c : Char) : Bytes :=
  let n := c.toNat
  if n < 128 then [n]
  else if n < 2048 then [192 ||| (n >>> 6), 128 ||| (n &&& 63)]
  else if n < 65536 then
    [224 ||| (n >>> 12), 128 ||| ((n >>> 6) &&& 63), 128 ||| (n &&& 63)]
  else
    [240 ||| (n >>> 18), 128 ||| ((n >>> 12) &&& 63),
     128 ||| ((n >>> 6) &&& 63), 128 ||| (n &&& 63)]

/-- `str::as_bytes`: the UTF-8 bytes of a string. -/
def utf8Bytes (s : String) : Bytes :=
  (s.data.map utf8EncodeCharBytes).flatten

/-! ## Parameter sets (`HashMap<String, String>`), `src/utils.rs`,
`src/client/auth.rs` -/

/-- A parameter set: the contents of a `HashMap<String, String>` as an
association list; the list order stands for the map's iteration order. -/
abbrev Params := List (String × String)

/-- `HashMap::insert`: replace the entry of an existing key, else append. -/
def hashInsert : Params → String → String → Params
  | [], k, v => [(k, v)]
  | (k', v') :: rest, k, v =>
      if k' = k then (k, v) :: rest else (k', v') :: hashInsert rest k v

/-- The keys of a parameter set. -/
def pkeys (l : Params) : List String := l.map Prod.fst

/-- Comparison used by `sign_request`'s `sort_by(|a, b| a.0.cmp(&b.0))`. -/
def keyLE (p q : String × String) : Prop := p.1 ≤ q.1

instance : DecidableRel keyLE := fun p q =>
  decidable_of_iff (p.1.toList ≤ q.1.toList) String.le_iff_toList_le.symm

instance : IsTotal (String × String) keyLE := ⟨fun p q => le_total p.1 q.1⟩

instance : IsTrans (String × String) keyLE := ⟨fun _ _ _ h h' => le_trans h h'⟩

/-- Strict key order on pairs, used to state that the canonical pair list
has strictly ascending keys. -/
def keyLT (p q : String × String) : Prop := p.1 < q.1

instance : IsAntisymm (String × String) keyLT :=
  ⟨fun _ _ h h' => absurd h' (lt_asymm h)⟩

/-- `sign_request` lines 47-48: collect the map's pairs and sort them by key
(a stable comparison sort; insertion sort computes the same result). -/
def sortPairs (l : Params) : Params := List.insertionSort keyLE l

/-- `HashMap::remove`: drop the entry of the given key, if any. -/
def eraseKey : Params → String → Params
  | [], _ => []
  | (k', v') :: rest, k => if k' = k then rest else (k', v') :: eraseKey rest k

/-- The `key=value` pairs joined by `&` (`sign_request` lines 50-54 and
`utils::build_query_string_from_map`, which does the same join without
sorting, straight off the map's iteration order). -/
def queryString (l : Params) : String :=
  String.intercalate "&" (l.map fun p => p.1 ++ "=" ++ p.2)

/-- `utils::build_query_string_from_map` (utils.rs lines 29-35): join the
map's pairs in iteration order, with no sorting. -/
def build_query_string_from_map (l : Params) : String := queryString l

/-- The canonical query string of `Signer::sign_request`: sort by key, then
join. -/
def canonicalQueryString (l : Params) : String := queryString (sortPairs l)

/-- `Credentials` (auth.rs lines 10-13). -/
structure Credentials where
  api_key : String
  secret_key : String

/-- `Signer` (auth.rs lines 22-24). -/
structure Signer where
  credentials : Credentials

/-- `Signer::sign` (auth.rs lines 32-39): HMAC-SHA256 of the query string's
UTF-8 bytes keyed by the secret's UTF-8 bytes, hex-encoded lowercase.
`HmacSha256::new_from_slice` accepts every key length, so the `Result` is
always `Ok` and the embedding is total. -/
def Signer.sign (s : Signer) (query_string : String) : String :=
  hexEncode (hmacSha256 (utf8Bytes s.credentials.secret_key) (utf8Bytes query_string))

/-- `Signer::sign_request` (auth.rs lines 42-64): insert the fresh
`timestamp`, sort the pairs by key, join them into the query string, sign
it, and add the `signature` field.  The current epoch-millisecond time
`ts` (`get_timestamp()`) is passed explicitly. -/
def Signer.sign_request (s : Signer) (params : Params) (ts : Nat) : Params :=
  let withTs := hashInsert params "timestamp" (toString ts)
  let query_params := sortPairs withTs
  let query_string := queryString query_params
  let signature := s.sign query_string
  hashInsert query_params "signature" signature

/-- The query string `sign_request` actually signs, for a given input. -/
def signRequestCanonical (params : Params) (ts : Nat) : String :=
  canonicalQueryString (hashInsert params "timestamp" (toString ts))

/-! ## HTTP client (`src/client/http.rs`) -/

inductive BinanceError where
  | Http (msg : String)
  | Json (msg : String)
  | Api (code : Int) (msg : String)
  | Authentication (msg : String)
  | RateLimit
  | InvalidParameter (msg : String)
  | WebSocket (msg : String)
  | Timeout
  | Unknown (msg : String)
deriving DecidableEq, Repr

def BASE_URL : String := "https://fapi.binance.com"

def TESTNET_URL : String := "https://testnet.binancefuture.com"

inductive HttpMethod where
  | get
  | post
  | put
  | delete
deriving DecidableEq, Repr

/-- The request a client method hands to `reqwest`: everything the call
determines before any network I/O happens. -/
structure HttpRequest where
  method : HttpMethod
  url : String
  query : Params
  form : Params
  headers : Params
deriving Repr

/-- `HttpClient` (http.rs lines 12-16); the `reqwest::Client` itself holds
no call-relevant state beyond the timeout. -/
structure HttpClient where
  base_url : String
  signer : Option Signer

def HttpClient.new : HttpClient := ⟨BASE_URL, none⟩

def HttpClient.new_with_credentials (c : Credentials) : HttpClient :=
  ⟨BASE_URL, some ⟨c⟩⟩

def HttpClient.testnet : HttpClient := ⟨TESTNET_URL, none⟩

def HttpClient.testnet_with_credentials (c : Credentials) : HttpClient :=
  ⟨TESTNET_URL, some ⟨c⟩⟩

/-- `get_public` (http.rs lines 51-64): an unsigned GET; the credentials are
never consulted. -/
def HttpClient.get_public (c : HttpClient) (endpoint : String)
    (params : Option Params) : Except BinanceError HttpRequest :=
  .ok { method := .get, url := c.base_url ++ endpoint,
        query := params.getD [], form := [], headers := [] }

/-- `get_signed` (http.rs lines 67-89): fail with an `Authentication` error
when no signer is configured, before building or sending any request;
otherwise sign the parameters and attach the API-key header. -/
def HttpClient.get_signed (c : HttpClient) (endpoint : String)
    (params : Option Params) (ts : Nat) : Except BinanceError HttpRequest :=
  match c.signer with
  | none => .error (.Authentication "No credentials provided for signed request")
  | some s =>
      let signed_params := s.sign_request (params.getD []) ts
      .ok { method := .get, url := c.base_url ++ endpoint, query := signed_params,
            form := [], headers := [("X-MBX-APIKEY", s.credentials.api_key)] }

/-- `post_signed` (http.rs lines 92-114): like `get_signed` but the signed
parameters travel as the form body. -/
def HttpClient.post_signed (c : HttpClient) (endpoint : String)
    (params : Option Params) (ts : Nat) : Except BinanceError HttpRequest :=
  match c.signer with
  | none => .error (.Authentication "No credentials provided for signed request")
  | some s =>
      let signed_params := s.sign_request (params.getD []) ts
      .ok { method := .post, url := c.base_url ++ endpoint, query := [],
            form := signed_params, headers := [("X-MBX-APIKEY", s.credentials.api_key)] }

/-- `put_signed` (http.rs lines 117-145): checks credentials, inserts the
timestamp, builds the query string with `build_query_string_from_map`
(iteration order, no sorting), signs that string and adds the signature. -/
def HttpClient.put_signed (c : HttpClient) (endpoint : String)
    (params : Option Params) (ts : Nat) : Except BinanceError HttpRequest :=
  match c.signer with
  | none => .error (.Authentication "No credentials provided for signed request")
  | some s =>
      let query_params := hashInsert (params.getD []) "timestamp" (toString ts)
      let query_string := build_query_string_from_map query_params
      let signature := s.sign query_string
      let query_params := hashInsert query_params "signature" signature
      .ok { method := .put, url := c.base_url ++ endpoint, query := query_params,
            form := [], headers := [("X-MBX-APIKEY", s.credentials.api_key)] }

/-- `delete_signed` (http.rs lines 148-176): identical to `put_signed` with
the DELETE method. -/
def HttpClient.delete_signed (c : HttpClient) (endpoint : String)
    (params : Option Params) (ts : Nat) : Except BinanceError HttpRequest :=
  match c.signer with
  | none => .error (.Authentication "No credentials provided for signed request")
  | some s =>
      let query_params := hashInsert (params.getD []) "timestamp" (toString ts)
      let query_string := build_query_string_from_map query_params
      let signature := s.sign query_string
      let query_params := hashInsert query_params "signature" signature
      .ok { method := .delete, url := c.base_url ++ endpoint, query := query_params,
            form := [], headers := [("X-MBX-APIKEY", s.credentials.api_key)] }

/-- The query string `put_signed`/`delete_signed` actually sign: the
iteration-order join, unsorted. -/
def putSignedCanonical (params : Params) (ts : Nat) : String :=
  build_query_string_from_map (hashInsert params "timestamp" (toString ts))

/-! ## Listen-key lifecycle manager (`src/websocket/user_data.rs`)

`Instant`s and `Duration`s are `Nat` milliseconds; `Instant::elapsed` is
the truncated subtraction `now - t`, with the current instant passed
explicitly.  Each operation takes the outcome its single transport call
would produce and returns, besides the Rust function's result and the
updated manager, the number of transport calls it performed. -/

/-- `UserDataStreamManager` (user_data.rs lines 15-20); the embedded
`HttpClient` does not influence the state machine and is omitted. -/
structure UserDataStreamManager where
  listen_key : Option String
  last_keepalive : Option Nat
  keepalive_interval : Nat

/-- `UserDataStreamManager::new` (lines 24-31): no key, no anchor, 30-minute
interval. -/
def UserDataStreamManager.new : UserDataStreamManager :=
  ⟨none, none, 30 * 60 * 1000⟩

/-- `create_listen_key` (lines 34-44): POST `/fapi/v1/listenKey`; on success
store the returned key and anchor the keepalive clock at `now`; on failure
(`?`) propagate the error and leave the state unchanged. -/
def UserDataStreamManager.create_listen_key (m : UserDataStreamManager)
    (outcome : Except BinanceError String) (now : Nat) :
    Except BinanceError String × UserDataStreamManager × Nat :=
  match outcome with
  | .error e => (.error e, m, 1)
  | .ok key => (.ok key, { m with listen_key := some key, last_keepalive := some now }, 1)

/-- `keepalive_listen_key` (lines 47-64): with a key stored, PUT it once;
on success refresh the anchor, on failure (`?`) propagate the error with
the state unchanged.  Without a key, return `Api { code: -1 }` and make no
transport call. -/
def UserDataStreamManager.keepalive_listen_key (m : UserDataStreamManager)
    (outcome : Except BinanceError Unit) (now : Nat) :
    Except BinanceError Unit × UserDataStreamManager × Nat :=
  match m.listen_key with
  | some _ =>
      match outcome with
      | .error e => (.error e, m, 1)
      | .ok _ => (.ok (), { m with last_keepalive := some now }, 1)
  | none => (.error (.Api (-1) "No listen key available"), m, 0)

/-- `close_listen_key` (lines 67-85): with a key stored, DELETE it once; on
success clear key and anchor, on failure propagate the error with the
state unchanged.  Without a key, return `Api { code: -1 }` and make no
transport call. -/
def UserDataStreamManager.close_listen_key (m : UserDataStreamManager)
    (outcome : Except BinanceError Unit) (_now : Nat) :
    Except BinanceError Unit × UserDataStreamManager × Nat :=
  match m.listen_key with
  | some _ =>
      match outcome with
      | .error e => (.error e, m, 1)
      | .ok _ => (.ok (), { m with listen_key := none, last_keepalive := none }, 1)
  | none => (.error (.Api (-1) "No listen key to close"), m, 0)

/-- `needs_keepalive` (lines 103-109): true iff an anchor exists and at
least `keepalive_interval` has elapsed since it. -/
def UserDataStreamManager.needs_keepalive (m : UserDataStreamManager) (now : Nat) : Bool :=
  match m.last_keepalive with
  | some t => m.keepalive_interval ≤ now - t
  | none => false

/-- `is_expired` (lines 141-148): true iff no anchor exists, or at least
60 minutes have elapsed since the anchor. -/
def UserDataStreamManager.is_expired (m : UserDataStreamManager) (now : Nat) : Bool :=
  match m.last_keepalive with
  | some t => 60 * 60 * 1000 ≤ now - t
  | none => true

/-! ## WebSocket stream connector (`src/websocket/stream.rs`) -/

def WS_BASE_URL : String := "wss://fstream.binance.com/ws/"

def WS_TESTNET_URL : String := "wss://stream.binancefuture.com/ws/"

/-- `WebSocketClient` (stream.rs lines 14-16). -/
structure WebSocketClient where
  base_url : String

def WebSocketClient.new : WebSocketClient := ⟨WS_BASE_URL⟩

def WebSocketClient.testnet : WebSocketClient := ⟨WS_TESTNET_URL⟩

/-- The URL `connect_stream` opens (lines 34-39). -/
def WebSocketClient.connect_stream_url (c : WebSocketClient) (stream : String) : String :=
  c.base_url ++ stream

/-- The URL `connect_combined_stream` opens (lines 42-48): the topics joined
by `/` behind `stream?streams=`. -/
def WebSocketClient.connect_combined_stream_url (c : WebSocketClient)
    (streams : List String) : String :=
  c.base_url ++ "stream?streams=" ++ String.intercalate "/" streams

/-- The URL `user_data_stream` opens (lines 190-195). -/
def WebSocketClient.user_data_stream_url (c : WebSocketClient) (listen_key : String) : String :=
  c.base_url ++ "ws/" ++ listen_key

/-- `StreamBuilder::connect` (lines 256-266): error on an empty topic list,
single-stream URL for exactly one topic, combined-stream URL otherwise. -/
def streamBuilderConnectUrl (c : WebSocketClient) (streams : List String) :
    Except BinanceError String :=
  if streams.isEmpty then .error (.WebSocket "No streams configured")
  else if streams.length = 1 then .ok (c.connect_stream_url (streams.headD ""))
  else .ok (c.connect_combined_stream_url streams)

/-- Topic-name constructor `depth_stream` (stream.rs lines 51-56); the
symbols in scope are ASCII, where `String.toLower` agrees with Rust's
`to_lowercase`. -/
def WebSocketClient.depth_stream (symbol : String) (levels : Option Nat) : String :=
  match levels with
  | some levels => symbol.toLower ++ "@depth" ++ toString levels ++ "@100ms"
  | none => symbol.toLower ++ "@depth@100ms"

/-- `trade_stream` (lines 59-61). -/
def WebSocketClient.trade_stream (symbol : String) : String :=
  symbol.toLower ++ "@trade"

/-- `kline_stream` (lines 64-66). -/
def WebSocketClient.kline_stream (symbol : String) (interval : String) : String :=
  symbol.toLower ++ "@kline_" ++ interval

/-- `ticker_stream` (lines 69-71). -/
def WebSocketClient.ticker_stream (symbol : String) : String :=
  symbol.toLower ++ "@ticker"

/-! ## JSON values and the stream payload types
(`serde_json::Value`, `src/websocket/types.rs`) -/

/-- `serde_json::Value`, with numbers as integers — every numeric field of
the stream payload types is an unsigned integer. -/
inductive Json where
  | null
  | bool (b : Bool)
  | num (n : Int)
  | str (s : String)
  | arr (elems : List Json)
  | obj (fields : List (String × Json))

/-- `Value::get(key)`: field lookup, `none` on non-objects. -/
def jsonGet (v : Json) (key : String) : Option Json :=
  match v with
  | .obj fields => fields.lookup key
  | _ => none

/-- `Value::as_str`. -/
def jsonAsStr (v : Json) : Option String :=
  match v with
  | .str s => some s
  | _ => none

/-- Does the character list `pat` occur at the start of `l`? -/
def charsLeadMatch : List Char → List Char → Bool
  | [], _ => true
  | _ :: _, [] => false
  | p :: ps, c :: cs => p == c && charsLeadMatch ps cs

/-- Rust `str::contains(pat)`: substring containment. -/
def strContainsSub (s pat : String) : Bool :=
  go pat.data s.data
where
  go (p : List Char) : List Char → Bool
    | [] => charsLeadMatch p []
    | c :: cs => charsLeadMatch p (c :: cs) || go p cs

/-- `OrderSide` (types/common.rs lines 7-10). -/
inductive OrderSide where
  | Buy
  | Sell
deriving DecidableEq, Repr

/-- `OrderType` (common.rs lines 24-32). -/
inductive OrderType where
  | Limit
  | Market
  | Stop
  | StopMarket
  | TakeProfit
  | TakeProfitMarket
  | TrailingStopMarket
deriving DecidableEq, Repr

/-- `TimeInForce` (common.rs lines 51-56). -/
inductive TimeInForce where
  | Gtc
  | Ioc
  | Fok
  | Gtx
deriving DecidableEq, Repr

/-- `PositionSide` (common.rs lines 72-76). -/
inductive PositionSide where
  | Both
  | Long
  | Short
deriving DecidableEq, Repr

/-- `OrderStatus` (common.rs lines 99-106). -/
inductive OrderStatus where
  | New
  | PartiallyFilled
  | Filled
  | Canceled
  | Rejected
  | Expired
deriving DecidableEq, Repr

/-- `DepthUpdate` (websocket/types.rs lines 13-32); field names keep the
Rust names, with the serde renames recorded in the decoder. -/
structure DepthUpdate where
  event_type : String
  event_time : Nat
  transaction_time : Nat
  symbol : String
  first_update_id : Nat
  final_update_id : Nat
  previous_final_update_id : Nat
  bids : List (String × String)
  asks : List (String × String)
deriving Repr

/-- `TradeStream` (types.rs lines 36-57). -/
structure TradeStream where
  event_type : String
  event_time : Nat
  trade_time : Nat
  symbol : String
  trade_id : Nat
  price : String
  quantity : String
  buyer_order_id : Nat
  seller_order_id : Nat
  is_buyer_maker : Bool
deriving Repr

/-- `KlineData` (types.rs lines 73-106). -/
structure KlineData where
  start_time : Nat
  close_time : Nat
  symbol : String
  interval : String
  first_trade_id : Nat
  last_trade_id : Nat
  «open» : String
  close : String
  high : String
  low : String
  volume : String
  trade_count : Nat
  is_closed : Bool
  quote_volume : String
  taker_buy_volume : String
  taker_buy_quote_volume : String
deriving Repr

/-- `KlineStream` (types.rs lines 61-70). -/
structure KlineStream where
  event_type : String
  event_time : Nat
  symbol : String
  kline : KlineData
deriving Repr

/-- `TickerStream` (types.rs lines 110-147). -/
structure TickerStream where
  event_type : String
  event_time : Nat
  symbol : String
  price_change : String
  price_change_percent : String
  weighted_avg_price : String
  last_price : String
  last_quantity : String
  open_price : String
  high_price : String
  low_price : String
  volume : String
  quote_volume : String
  open_time : Nat
  close_time : Nat
  first_trade_id : Nat
  last_trade_id : Nat
  trade_count : Nat
deriving Repr

/-- `BalanceUpdate` (types.rs lines 173-182). -/
structure BalanceUpdate where
  asset : String
  wallet_balance : String
  cross_wallet_balance : String
  balance_change : String
deriving Repr

/-- `PositionUpdate` (types.rs lines 185-202). -/
structure PositionUpdate where
  symbol : String
  position_amount : String
  entry_price : String
  accumulated_realized : String
  unrealized_pnl : String
  margin_type : String
  isolated_wallet : String
  position_side : PositionSide
deriving Repr

/-- `AccountUpdateData` (types.rs lines 163-170). -/
structure AccountUpdateData where
  event_reason : String
  balances : List BalanceUpdate
  positions : List PositionUpdate
deriving Repr

/-- `AccountUpdate` (types.rs lines 151-160). -/
structure AccountUpdate where
  event_type : String
  event_time : Nat
  transaction_time : Nat
  account_update : AccountUpdateData
deriving Repr

/-- `OrderUpdateData` (types.rs lines 218-279). -/
structure OrderUpdateData where
  symbol : String
  client_order_id : String
  side : OrderSide
  order_type : OrderType
  time_in_force : TimeInForce
  original_quantity : String
  original_price : String
  average_price : String
  stop_price : String
  execution_type : String
  order_status : OrderStatus
  order_id : Nat
  last_filled_quantity : String
  cumulative_filled_quantity : String
  last_filled_price : String
  commission_amount : String
  commission_asset : Option String
  order_trade_time : Nat
  trade_id : Nat
  bids_notional : String
  ask_notional : String
  is_maker : Bool
  reduce_only : Bool
  working_type : String
  original_order_type : OrderType
  position_side : PositionSide
  close_position : Bool
  activation_price : Option String
  callback_rate : Option String
  realized_profit : String
deriving Repr

/-- `OrderUpdate` (types.rs lines 206-215). -/
structure OrderUpdate where
  event_type : String
  event_time : Nat
  transaction_time : Nat
  order : OrderUpdateData
deriving Repr

/-- `WebSocketMessage` (types.rs lines 283-293). -/
inductive WebSocketMessage where
  | DepthUpdate (d : DepthUpdate)
  | Trade (t : TradeStream)
  | Kline (k : KlineStream)
  | Ticker (t : TickerStream)
  | AccountUpdate (a : AccountUpdate)
  | OrderUpdate (o : OrderUpdate)
  | Ping
  | Pong
  | Error (msg : String)
deriving Repr

/-! ### Decoders: the derived `serde::Deserialize` instances.
A failed deserialization surfaces as `BinanceError::Json` via the `From`
impls; the embedded error messages are representative, not byte-identical
to serde's. -/

def decodeStr : Json → Except BinanceError String
  | .str s => .ok s
  | _ => .error (.Json "expected a string")

/-- serde deserializes the `u64` fields from JSON integers. -/
def decodeU64 : Json → Except BinanceError Nat
  | .num n => if 0 ≤ n then .ok n.toNat else .error (.Json "expected u64")
  | _ => .error (.Json "expected u64")

def decodeBool : Json → Except BinanceError Bool
  | .bool b => .ok b
  | _ => .error (.Json "expected a bool")

/-- A `[String; 2]` entry of the `b`/`a` books. -/
def decodeStrPair : Json → Except BinanceError (String × String)
  | .arr [a, b] => do pure (← decodeStr a, ← decodeStr b)
  | _ => .error (.Json "expected [String; 2]")

def decodeList (dec : Json → Except BinanceError α) :
    Json → Except BinanceError (List α)
  | .arr elems => elems.mapM dec
  | _ => .error (.Json "expected an array")

/-- A required struct field: missing fields are a serde error. -/
def reqField (v : Json) (name : String) (dec : Json → Except BinanceError α) :
    Except BinanceError α :=
  match jsonGet v name with
  | some f => dec f
  | none => .error (.Json ("missing field `" ++ name ++ "`"))

/-- An `Option<String>` field: missing and `null` decode to `None`. -/
def optStrField (v : Json) (name : String) : Except BinanceError (Option String) :=
  match jsonGet v name with
  | none => .ok none
  | some .null => .ok none
  | some f => do pure (some (← decodeStr f))

/-- `OrderSide`'s serde names (`rename_all = "UPPERCASE"`). -/
def decodeOrderSide (v : Json) : Except BinanceError OrderSide := do
  match ← decodeStr v with
  | "BUY" => pure .Buy
  | "SELL" => pure .Sell
  | _ => .error (.Json "unknown OrderSide variant")

/-- `OrderType`'s serde names: `UPPERCASE` upcases the variant identifier,
so e.g. `StopMarket` deserializes from `"STOPMARKET"`. -/
def decodeOrderType (v : Json) : Except BinanceError OrderType := do
  match ← decodeStr v with
  | "LIMIT" => pure .Limit
  | "MARKET" => pure .Market
  | "STOP" => pure .Stop
  | "STOPMARKET" => pure .StopMarket
  | "TAKEPROFIT" => pure .TakeProfit
  | "TAKEPROFITMARKET" => pure .TakeProfitMarket
  | "TRAILINGSTOPMARKET" => pure .TrailingStopMarket
  | _ => .error (.Json "unknown OrderType variant")

def decodeTimeInForce (v : Json) : Except BinanceError TimeInForce := do
  match ← decodeStr v with
  | "GTC" => pure .Gtc
  | "IOC" => pure .Ioc
  | "FOK" => pure .Fok
  | "GTX" => pure .Gtx
  | _ => .error (.Json "unknown TimeInForce variant")

def decodePositionSide (v : Json) : Except BinanceError PositionSide := do
  match ← decodeStr v with
  | "BOTH" => pure .Both
  | "LONG" => pure .Long
  | "SHORT" => pure .Short
  | _ => .error (.Json "unknown PositionSide variant")

def decodeOrderStatus (v : Json) : Except BinanceError OrderStatus := do
  match ← decodeStr v with
  | "NEW" => pure .New
  | "PARTIALLYFILLED" => pure .PartiallyFilled
  | "FILLED" => pure .Filled
  | "CANCELED" => pure .Canceled
  | "REJECTED" => pure .Rejected
  | "EXPIRED" => pure .Expired
  | _ => .error (.Json "unknown OrderStatus variant")

/-- `Deserialize for DepthUpdate`, with the serde renames of
types.rs lines 13-32. -/
def decodeDepthUpdate (v : Json) : Except BinanceError DepthUpdate := do
  pure { event_type := ← reqField v "e" decodeStr
         event_time := ← reqField v "E" decodeU64
         transaction_time := ← reqField v "T" decodeU64
         symbol := ← reqField v "s" decodeStr
         first_update_id := ← reqField v "U" decodeU64
         final_update_id := ← reqField v "u" decodeU64
         previous_final_update_id := ← reqField v "pu" decodeU64
         bids := ← reqField v "b" (decodeList decodeStrPair)
         asks := ← reqField v "a" (decodeList decodeStrPair) }

/-- `Deserialize for TradeStream` (types.rs lines 36-57). -/
def decodeTradeStream (v : Json) : Except BinanceError TradeStream := do
  pure { event_type := ← reqField v "e" decodeStr
         event_time := ← reqField v "E" decodeU64
         trade_time := ← reqField v "T" decodeU64
         symbol := ← reqField v "s" decodeStr
         trade_id := ← reqField v "t" decodeU64
         price := ← reqField v "p" decodeStr
         quantity := ← reqField v "q" decodeStr
         buyer_order_id := ← reqField v "X" decodeU64
         seller_order_id := ← reqField v "Y" decodeU64
         is_buyer_maker := ← reqField v "m" decodeBool }

/-- `Deserialize for KlineData` (types.rs lines 73-106). -/
def decodeKlineData (v : Json) : Except BinanceError KlineData := do
  pure { start_time := ← reqField v "t" decodeU64
         close_time := ← reqField v "T" decodeU64
         symbol := ← reqField v "s" decodeStr
         interval := ← reqField v "i" decodeStr
         first_trade_id := ← reqField v "f" decodeU64
         last_trade_id := ← reqField v "L" decodeU64
         «open» := ← reqField v "o" decodeStr
         close := ← reqField v "c" decodeStr
         high := ← reqField v "h" decodeStr
         low := ← reqField v "l" decodeStr
         volume := ← reqField v "v" decodeStr
         trade_count := ← reqField v "n" decodeU64
         is_closed := ← reqField v "x" decodeBool
         quote_volume := ← reqField v "q" decodeStr
         taker_buy_volume := ← reqField v "V" decodeStr
         taker_buy_quote_volume := ← reqField v "Q" decodeStr }

/-- `Deserialize for KlineStream` (types.rs lines 61-70). -/
def decodeKlineStream (v : Json) : Except BinanceError KlineStream := do
  pure { event_type := ← reqField v "e" decodeStr
         event_time := ← reqField v "E" decodeU64
         symbol := ← reqField v "s" decodeStr
         kline := ← reqField v "k" decodeKlineData }

/-- `Deserialize for TickerStream` (types.rs lines 110-147). -/
def decodeTickerStream (v : Json) : Except BinanceError TickerStream := do
  pure { event_type := ← reqField v "e" decodeStr
         event_time := ← reqField v "E" decodeU64
         symbol := ← reqField v "s" decodeStr
         price_change := ← reqField v "p" decodeStr
         price_change_percent := ← reqField v "P" decodeStr
         weighted_avg_price := ← reqField v "w" decodeStr
         last_price := ← reqField v "c" decodeStr
         last_quantity := ← reqField v "Q" decodeStr
         open_price := ← reqField v "o" decodeStr
         high_price := ← reqField v "h" decodeStr
         low_price := ← reqField v "l" decodeStr
         volume := ← reqField v "v" decodeStr
         quote_volume := ← reqField v "q" decodeStr
         open_time := ← reqField v "O" decodeU64
         close_time := ← reqField v "C" decodeU64
         first_trade_id := ← reqField v "F" decodeU64
         last_trade_id := ← reqField v "L" decodeU64
         trade_count := ← reqField v "n" decodeU64 }

/-- `Deserialize for BalanceUpdate` (types.rs lines 173-182). -/
def decodeBalanceUpdate (v : Json) : Except BinanceError BalanceUpdate := do
  pure { asset := ← reqField v "a" decodeStr
         wallet_balance := ← reqField v "wb" decodeStr
         cross_wallet_balance := ← reqField v "cw" decodeStr
         balance_change := ← reqField v "bc" decodeStr }

/-- `Deserialize for PositionUpdate` (types.rs lines 185-202). -/
def decodePositionUpdate (v : Json) : Except BinanceError PositionUpdate := do
  pure { symbol := ← reqField v "s" decodeStr
         position_amount := ← reqField v "pa" decodeStr
         entry_price := ← reqField v "ep" decodeStr
         accumulated_realized := ← reqField v "cr" decodeStr
         unrealized_pnl := ← reqField v "up" decodeStr
         margin_type := ← reqField v "mt" decodeStr
         isolated_wallet := ← reqField v "iw" decodeStr
         position_side := ← reqField v "ps" decodePositionSide }

/-- `Deserialize for AccountUpdateData` (types.rs lines 163-170). -/
def decodeAccountUpdateData (v : Json) : Except BinanceError AccountUpdateData := do
  pure { event_reason := ← reqField v "m" decodeStr
         balances := ← reqField v "B" (decodeList decodeBalanceUpdate)
         positions := ← reqField v "P" (decodeList decodePositionUpdate) }

/-- `Deserialize for AccountUpdate` (types.rs lines 151-160). -/
def decodeAccountUpdate (v : Json) : Except BinanceError AccountUpdate := do
  pure { event_type := ← reqField v "e" decodeStr
         event_time := ← reqField v "E" decodeU64
         transaction_time := ← reqField v "T" decodeU64
         account_update := ← reqField v "a" decodeAccountUpdateData }

/-- `Deserialize for OrderUpdateData` (types.rs lines 218-279). -/
def decodeOrderUpdateData (v : Json) : Except BinanceError OrderUpdateData := do
  pure { symbol := ← reqField v "s" decodeStr
         client_order_id := ← reqField v "c" decodeStr
         side := ← reqField v "S" decodeOrderSide
         order_type := ← reqField v "o" decodeOrderType
         time_in_force := ← reqField v "f" decodeTimeInForce
         original_quantity := ← reqField v "q" decodeStr
         original_price := ← reqField v "p" decodeStr
         average_price := ← reqField v "ap" decodeStr
         stop_price := ← reqField v "sp" decodeStr
         execution_type := ← reqField v "x" decodeStr
         order_status := ← reqField v "X" decodeOrderStatus
         order_id := ← reqField v "i" decodeU64
         last_filled_quantity := ← reqField v "l" decodeStr
         cumulative_filled_quantity := ← reqField v "z" decodeStr
         last_filled_price := ← reqField v "L" decodeStr
         commission_amount := ← reqField v "n" decodeStr
         commission_asset := ← optStrField v "N"
         order_trade_time := ← reqField v "T" decodeU64
         trade_id := ← reqField v "t" decodeU64
         bids_notional := ← reqField v "b" decodeStr
         ask_notional := ← reqField v "a" decodeStr
         is_maker := ← reqField v "m" decodeBool
         reduce_only := ← reqField v "R" decodeBool
         working_type := ← reqField v "wt" decodeStr
         original_order_type := ← reqField v "ot" decodeOrderType
         position_side := ← reqField v "ps" decodePositionSide
         close_position := ← reqField v "cp" decodeBool
         activation_price := ← optStrField v "AP"
         callback_rate := ← optStrField v "cr"
         realized_profit := ← reqField v "rp" decodeStr }

/-- `Deserialize for OrderUpdate` (types.rs lines 206-215). -/
def decodeOrderUpdate (v : Json) : Except BinanceError OrderUpdate := do
  pure { event_type := ← reqField v "e" decodeStr
         event_time := ← reqField v "E" decodeU64
         transaction_time := ← reqField v "T" decodeU64
         order := ← reqField v "o" decodeOrderUpdateData }

/-! ### `parse_message` (stream.rs lines 79-152) -/

/-- `parse_stream_data` (stream.rs lines 106-122): dispatch on a substring
of the stream name, `@depth` before `@trade` before `@kline` before
`@ticker`. -/
def parse_stream_data (stream_name : String) (data : Json) :
    Except BinanceError WebSocketMessage :=
  if strContainsSub stream_name "@depth" then
    (decodeDepthUpdate data).map WebSocketMessage.DepthUpdate
  else if strContainsSub stream_name "@trade" then
    (decodeTradeStream data).map WebSocketMessage.Trade
  else if strContainsSub stream_name "@kline" then
    (decodeKlineStream data).map WebSocketMessage.Kline
  else if strContainsSub stream_name "@ticker" then
    (decodeTickerStream data).map WebSocketMessage.Ticker
  else
    .error (.WebSocket ("Unknown stream: " ++ stream_name))

/-- `parse_event_data` (stream.rs lines 124-152): dispatch on the literal
event-type value. -/
def parse_event_data (event_type : String) (data : Json) :
    Except BinanceError WebSocketMessage :=
  match event_type with
  | "depthUpdate" => (decodeDepthUpdate data).map WebSocketMessage.DepthUpdate
  | "trade" => (decodeTradeStream data).map WebSocketMessage.Trade
  | "kline" => (decodeKlineStream data).map WebSocketMessage.Kline
  | "24hrTicker" => (decodeTickerStream data).map WebSocketMessage.Ticker
  | "ACCOUNT_UPDATE" => (decodeAccountUpdate data).map WebSocketMessage.AccountUpdate
  | "ORDER_TRADE_UPDATE" => (decodeOrderUpdate data).map WebSocketMessage.OrderUpdate
  | _ => .error (.WebSocket ("Unknown event type: " ++ event_type))

/-- `parse_message` (stream.rs lines 79-104), from the parsed
`serde_json::Value` on: combined-stream envelope first (stream name via
`as_str().unwrap_or("")`, payload via `get("data")` falling back to the
whole value), then the single-stream event-type field when it is a string,
then `ping`/`pong` markers, and otherwise the unknown-format error. -/
def parse_message (v : Json) : Except BinanceError WebSocketMessage :=
  match jsonGet v "stream" with
  | some stream_data =>
      parse_stream_data ((jsonAsStr stream_data).getD "") ((jsonGet v "data").getD v)
  | none =>
  match jsonGet v "e" >>= jsonAsStr with
  | some event_type => parse_event_data event_type v
  | none =>
  if (jsonGet v "ping").isSome then .ok .Ping
  else if (jsonGet v "pong").isSome then .ok .Pong
  else .error (.WebSocket "Unknown message format")

/-! ### Concrete fixtures used to evaluate the embedded functions -/

/-- The credentials of the repository's own `auth.rs` tests. -/
def testSigner : Signer := ⟨⟨"test_api_key", "test_secret_key"⟩⟩

/-- The single-topic depth-update payload of the repository's
`test_parse_depth_message` test. -/
def depthMsgJson : Json :=
  .obj [("e", .str "depthUpdate"), ("E", .num 1640995200000),
        ("T", .num 1640995200000), ("s", .str "BTCUSDT"),
        ("U", .num 157), ("u", .num 160), ("pu", .num 156),
        ("b", .arr [.arr [.str "50000.0", .str "1.0"]]),
        ("a", .arr [.arr [.str "50100.0", .str "2.0"]])]

/-- The `DepthUpdate` value `depthMsgJson` decodes to. -/
def depthMsgExpected : DepthUpdate :=
  { event_type := "depthUpdate", event_time := 1640995200000,
    transaction_time := 1640995200000, symbol := "BTCUSDT",
    first_update_id := 157, final_update_id := 160,
    previous_final_update_id := 156,
    bids := [("50000.0", "1.0")], asks := [("50100.0", "2.0")] }

/-- A trade payload for the multiplexed-envelope dispatch. -/
def tradeMsgJson : Json :=
  .obj [("e", .str "trade"), ("E", .num 1640995200123),
        ("T", .num 1640995200120), ("s", .str "BTCUSDT"),
        ("t", .num 101), ("p", .str "50000.0"), ("q", .str "0.5"),
        ("X", .num 7), ("Y", .num 8), ("m", .bool false)]

/-- The `TradeStream` value `tradeMsgJson` decodes to. -/
def tradeMsgExpected : TradeStream :=
  { event_type := "trade", event_time := 1640995200123,
    trade_time := 1640995200120, symbol := "BTCUSDT", trade_id := 101,
    price := "50000.0", quantity := "0.5", buyer_order_id := 7,
    seller_order_id := 8, is_buyer_maker := false }

/-- A multiplexed envelope carrying `tradeMsgJson`. -/
def tradeEnvelopeJson : Json :=
  .obj [("stream", .str "btcusdt@trade"), ("data", tradeMsgJson)]

/-! ## Lemmas about parameter maps and canonicalization -/

theorem hashInsert_of_not_mem {l : Params} {k : String} (v : String)
    (h : k ∉ pkeys l) : hashInsert l k v = l ++ [(k, v)] := by
  induction l with
  | nil => rfl
  | cons p rest ih =>
    obtain ⟨a, b⟩ := p
    simp only [pkeys, List.map_cons, List.mem_cons, not_or] at h
    simp [hashInsert, Ne.symm h.1, ih (by simpa [pkeys] using h.2)]

theorem pkeys_cons (a b : String) (l : Params) :
    pkeys ((a, b) :: l) = a :: pkeys l := rfl

theorem pkeys_append (l₁ l₂ : Params) :
    pkeys (l₁ ++ l₂) = pkeys l₁ ++ pkeys l₂ := List.map_append ..

theorem lookup_cons (k a b : String) (l : Params) :
    List.lookup k ((a, b) :: l) = if k = a then some b else List.lookup k l := by
  by_cases h : k = a
  · subst h; simp [List.lookup]
  · rw [List.lookup, if_neg h, show (k == a) = false from beq_eq_false_iff_ne.mpr h]

theorem pkeys_hashInsert_of_mem {l : Params} {k : String} (v : String)
    (h : k ∈ pkeys l) : pkeys (hashInsert l k v) = pkeys l := by
  induction l with
  | nil => cases h
  | cons p rest ih =>
    obtain ⟨a, b⟩ := p
    by_cases hk : a = k
    · subst hk; simp [hashInsert, pkeys_cons]
    · have hm : k ∈ pkeys rest := by
        rcases List.mem_cons.mp (pkeys_cons a b rest ▸ h) with h' | h'
        · exact absurd h'.symm hk
        · exact h'
      rw [hashInsert, if_neg hk, pkeys_cons, pkeys_cons, ih hm]

theorem mem_pkeys_hashInsert (l : Params) (k v : String) :
    k ∈ pkeys (hashInsert l k v) := by
  by_cases h : k ∈ pkeys l
  · rw [pkeys_hashInsert_of_mem v h]; exact h
  · rw [hashInsert_of_not_mem v h, pkeys_append]; simp [pkeys]

theorem nodup_pkeys_hashInsert {l : Params} (k v : String)
    (h : (pkeys l).Nodup) : (pkeys (hashInsert l k v)).Nodup := by
  by_cases hm : k ∈ pkeys l
  · rwa [pkeys_hashInsert_of_mem v hm]
  · rw [hashInsert_of_not_mem v hm, pkeys_append]
    exact h.append (List.nodup_singleton k)
      (by simpa [pkeys, List.disjoint_singleton] using hm)

theorem count_pkeys_hashInsert_ne {l : Params} {k k' v : String}
    (h : k' ≠ k) : (pkeys (hashInsert l k v)).count k' = (pkeys l).count k' := by
  by_cases hm : k ∈ pkeys l
  · rw [pkeys_hashInsert_of_mem v hm]
  · rw [hashInsert_of_not_mem v hm, pkeys_append]
    simp [pkeys, List.count_append, List.count_singleton, h]

theorem lookup_hashInsert_self (l : Params) (k v : String) :
    (hashInsert l k v).lookup k = some v := by
  induction l with
  | nil => simp [hashInsert, lookup_cons]
  | cons p rest ih =>
    obtain ⟨a, b⟩ := p
    by_cases hk : a = k
    · subst hk; simp [hashInsert, lookup_cons]
    · rw [hashInsert, if_neg hk, lookup_cons, if_neg (Ne.symm hk)]
      exact ih

theorem lookup_hashInsert_ne (l : Params) {k k' v : String}
    (h : k' ≠ k) : (hashInsert l k v).lookup k' = l.lookup k' := by
  induction l with
  | nil => simp [hashInsert, lookup_cons, h]
  | cons p rest ih =>
    obtain ⟨a, b⟩ := p
    by_cases hk : a = k
    · subst hk; rw [hashInsert, if_pos rfl, lookup_cons, lookup_cons, if_neg h, if_neg h]
    · rw [hashInsert, if_neg hk, lookup_cons, lookup_cons, ih]

theorem mem_of_lookup_eq_some {l : Params} {k v : String}
    (h : l.lookup k = some v) : (k, v) ∈ l := by
  induction l with
  | nil => cases h
  | cons p rest ih =>
    obtain ⟨a, b⟩ := p
    rw [lookup_cons] at h
    by_cases hk : k = a
    · rw [if_pos hk] at h
      cases h
      exact hk ▸ List.mem_cons_self _ _
    · rw [if_neg hk] at h
      exact List.mem_cons_of_mem _ (ih h)

theorem lookup_eq_some_of_mem {l : Params} (hn : (pkeys l).Nodup)
    {k v : String} (h : (k, v) ∈ l) : l.lookup k = some v := by
  induction l with
  | nil => cases h
  | cons p rest ih =>
    obtain ⟨a, b⟩ := p
    rw [pkeys_cons, List.nodup_cons] at hn
    rw [lookup_cons]
    rcases List.mem_cons.mp h with h' | h'
    · cases h'; simp
    · have hk : k ≠ a := by
        rintro rfl
        exact hn.1 (List.mem_map_of_mem Prod.fst h')
      rw [if_neg hk]
      exact ih hn.2 h'

theorem lookup_perm {l₁ l₂ : Params} (hp : l₁.Perm l₂)
    (hn : (pkeys l₁).Nodup) (k : String) : l₁.lookup k = l₂.lookup k := by
  have hn₂ : (pkeys l₂).Nodup := ((hp.map Prod.fst).nodup_iff).mp hn
  cases h : l₁.lookup k with
  | some v => exact (lookup_eq_some_of_mem hn₂ (hp.mem_iff.mp (mem_of_lookup_eq_some h))).symm
  | none =>
    cases h₂ : l₂.lookup k with
    | none => rfl
    | some w =>
      have := lookup_eq_some_of_mem hn (hp.mem_iff.mpr (mem_of_lookup_eq_some h₂))
      rw [h] at this
      cases this

theorem eraseKey_append_of_not_mem {l : Params} {k : String} (v : String)
    (h : k ∉ pkeys l) : eraseKey (l ++ [(k, v)]) k = l := by
  induction l with
  | nil => simp [eraseKey]
  | cons p rest ih =>
    obtain ⟨a, b⟩ := p
    simp only [pkeys, List.map_cons, List.mem_cons, not_or] at h
    simp [eraseKey, Ne.symm h.1, ih (by simpa [pkeys] using h.2)]

theorem sortPairs_perm (l : Params) : (sortPairs l).Perm l :=
  List.perm_insertionSort keyLE l

theorem sorted_keyLE_sortPairs (l : Params) : List.Sorted keyLE (sortPairs l) :=
  List.sorted_insertionSort keyLE l

theorem sorted_keyLT_of_nodup {l : Params} (hs : List.Sorted keyLE l)
    (hn : (pkeys l).Nodup) : List.Sorted keyLT l := by
  have hne : l.Pairwise fun p q => p.1 ≠ q.1 := List.pairwise_map.mp hn
  exact (hs.and hne).imp fun h => lt_of_le_of_ne h.1 h.2

theorem nodup_pkeys_sortPairs {l : Params} (hn : (pkeys l).Nodup) :
    (pkeys (sortPairs l)).Nodup :=
  (((sortPairs_perm l).map Prod.fst).nodup_iff).mpr hn

theorem sortPairs_eq_of_perm {l₁ l₂ : Params} (hp : l₁.Perm l₂)
    (hn : (pkeys l₁).Nodup) : sortPairs l₁ = sortPairs l₂ := by
  have hn₂ : (pkeys l₂).Nodup := ((hp.map Prod.fst).nodup_iff).mp hn
  have hperm : (sortPairs l₁).Perm (sortPairs l₂) :=
    (sortPairs_perm l₁).trans (hp.trans (sortPairs_perm l₂).symm)
  exact List.eq_of_perm_of_sorted hperm
    (sorted_keyLT_of_nodup (sorted_keyLE_sortPairs l₁) (nodup_pkeys_sortPairs hn))
    (sorted_keyLT_of_nodup (sorted_keyLE_sortPairs l₂) (nodup_pkeys_sortPairs hn₂))

theorem sortPairs_idem (l : Params) : sortPairs (sortPairs l) = sortPairs l :=
  (sorted_keyLE_sortPairs l).insertionSort_eq

/-! ## Lemmas about the digest and its hex encoding -/

theorem length_digestBytes (st : ShaState) : (digestBytes st).length = 32 := by
  simp [digestBytes, word32ToBytes]

theorem length_sha256 (m : Bytes) : (sha256 m).length = 32 :=
  length_digestBytes _

theorem word32ToBytes_lt (x : Nat) : ∀ b ∈ word32ToBytes x, b < 256 := by
  simp only [word32ToBytes, List.mem_cons, List.not_mem_nil, or_false]
  rintro b (rfl | rfl | rfl | rfl) <;> omega

theorem digestBytes_lt (st : ShaState) : ∀ b ∈ digestBytes st, b < 256 := by
  intro b hb
  simp only [digestBytes, List.mem_append] at hb
  rcases hb with ((((((h | h) | h) | h) | h) | h) | h) | h <;>
    exact word32ToBytes_lt _ b h

theorem sha256_lt (m : Bytes) : ∀ b ∈ sha256 m, b < 256 :=
  digestBytes_lt _

theorem length_hmacSha256 (key msg : Bytes) : (hmacSha256 key msg).length = 32 :=
  length_sha256 _

theorem hmacSha256_lt (key msg : Bytes) : ∀ b ∈ hmacSha256 key msg, b < 256 :=
  sha256_lt _

theorem hexDigitChar_mem_lowerHex :
    ∀ n < 16, hexDigitChar n ∈ ("0123456789abcdef").data := by decide

theorem length_hexEncode (l : Bytes) : (hexEncode l).length = 2 * l.length := by
  induction l with
  | nil => rfl
  | cons b t ih =>
    simp only [hexEncode, String.length, List.map_cons, List.flatten_cons] at ih ⊢
    simp only [List.length_append, List.length_cons, List.length_nil, List.length_map] at ih ⊢
    omega

theorem hexEncode_chars {l : Bytes} (hl : ∀ b ∈ l, b < 256) :
    ∀ c ∈ (hexEncode l).data, c ∈ ("0123456789abcdef").data := by
  induction l with
  | nil => intro c hc; cases hc
  | cons b t ih =>
    intro c hc
    simp only [hexEncode, List.map_cons, List.flatten_cons, List.cons_append,
      List.nil_append, List.mem_cons] at hc
    have hb : b < 256 := hl b (List.mem_cons_self _ _)
    rcases hc with rfl | rfl | hc
    · exact hexDigitChar_mem_lowerHex _ (by omega)
    · exact hexDigitChar_mem_lowerHex _ (Nat.mod_lt _ (by norm_num))
    · exact ih (fun x hx => hl x (List.mem_cons_of_mem _ hx)) c hc

/-- The fully unfolded shape of `sign_request`. -/
theorem sign_request_eq (s : Signer) (params : Params) (ts : Nat) :
    s.sign_request params ts =
      hashInsert (sortPairs (hashInsert params "timestamp" (toString ts))) "signature"
        (s.sign (queryString (sortPairs (hashInsert params "timestamp" (toString ts))))) := rfl

/-! ## Claims -/

set_option maxRecDepth 40000

/-- C1 (corrected), counterexample: on the signed PUT/DELETE shape the string
handed to the signer is `build_query_string_from_map` of the parameter map
in iteration order, with no sorting: the two iteration orders of the same
key/value multiset `{b ↦ 2, a ↦ 1}` sign different strings, and the signed
key sequence `["b", "a", "timestamp"]` is not ascending. -/
theorem put_signed_canonical_counterexample :
    List.Perm [("b", "2"), ("a", "1")] [("a", "1"), ("b", "2")] ∧
    putSignedCanonical [("b", "2"), ("a", "1")] 7 = "b=2&a=1&timestamp=7" ∧
    putSignedCanonical [("a", "1"), ("b", "2")] 7 = "a=1&b=2&timestamp=7" ∧
    putSignedCanonical [("b", "2"), ("a", "1")] 7 ≠
      putSignedCanonical [("a", "1"), ("b", "2")] 7 ∧
    pkeys (hashInsert [("b", "2"), ("a", "1")] "timestamp" "7") =
      ["b", "a", "timestamp"] ∧
    ¬ List.Sorted (· < ·) (pkeys (hashInsert [("b", "2"), ("a", "1")] "timestamp" "7")) := by
  refine ⟨List.Perm.swap ("a", "1") ("b", "2") [], rfl, rfl, by decide, rfl, ?_⟩
  intro h
  have hba : ("b" : String) < "a" :=
    (List.pairwise_cons.mp h).1 "a" (List.mem_cons_self _ _)
  rw [String.lt_iff_toList_lt] at hba
  exact absurd hba (by decide)

/-- C1 (amended): the canonical query string signed by `Signer::sign_request`
— the path of every signed GET and POST — is a pure function of the
key/value multiset and lists its keys in strictly ascending lexicographic
order; the signature field of the signed output is exactly the signature of
that canonical string. -/
theorem sign_request_canonicalization (s : Signer) (l₁ l₂ : Params) (ts : Nat)
    (hp : l₁.Perm l₂) (hn : (pkeys l₁).Nodup) :
    canonicalQueryString l₁ = canonicalQueryString l₂ ∧
    List.Sorted (· < ·) (pkeys (sortPairs l₁)) ∧
    (s.sign_request l₁ ts).lookup "signature" =
      some (s.sign (signRequestCanonical l₁ ts)) := by
  refine ⟨?_, ?_, ?_⟩
  · unfold canonicalQueryString
    rw [sortPairs_eq_of_perm hp hn]
  · exact List.pairwise_map.mpr
      (sorted_keyLT_of_nodup (sorted_keyLE_sortPairs l₁) (nodup_pkeys_sortPairs hn))
  · rw [sign_request_eq]
    exact lookup_hashInsert_self _ _ _

/-- Witness for C1's amended theorem at a concrete reordered pair of maps. -/
theorem sign_request_canonicalization_witness :
    canonicalQueryString [("symbol", "BTCUSDT"), ("side", "BUY")] =
      canonicalQueryString [("side", "BUY"), ("symbol", "BTCUSDT")] ∧
    List.Sorted (· < ·) (pkeys (sortPairs [("symbol", "BTCUSDT"), ("side", "BUY")])) ∧
    (testSigner.sign_request [("symbol", "BTCUSDT"), ("side", "BUY")] 1234567890).lookup
        "signature" =
      some (testSigner.sign
        (signRequestCanonical [("symbol", "BTCUSDT"), ("side", "BUY")] 1234567890)) :=
  sign_request_canonicalization testSigner _ _ 1234567890
    (List.Perm.swap ("side", "BUY") ("symbol", "BTCUSDT") []) (by decide)

/-- C2: `Signer::sign` is deterministic and always yields exactly 64
lowercase hexadecimal characters. -/
theorem sign_deterministic_and_hex (s₁ s₂ : Signer) (m₁ m₂ : String)
    (hs : s₁ = s₂) (hm : m₁ = m₂) :
    s₁.sign m₁ = s₂.sign m₂ ∧
    (s₁.sign m₁).length = 64 ∧
    ∀ c ∈ (s₁.sign m₁).data, c ∈ ("0123456789abcdef").data := by
  subst hs hm
  refine ⟨rfl, ?_, ?_⟩
  · show (hexEncode (hmacSha256 _ _)).length = 64
    rw [length_hexEncode, length_hmacSha256]
  · exact hexEncode_chars (hmacSha256_lt _ _)

/-- Witness for C2 at the repository's own test query string. -/
theorem sign_deterministic_and_hex_witness :
    testSigner.sign
        "symbol=BTCUSDT&side=BUY&type=LIMIT&quantity=1&price=50000&timestamp=1234567890" =
      testSigner.sign
        "symbol=BTCUSDT&side=BUY&type=LIMIT&quantity=1&price=50000&timestamp=1234567890" ∧
    (testSigner.sign
        "symbol=BTCUSDT&side=BUY&type=LIMIT&quantity=1&price=50000&timestamp=1234567890").length =
      64 ∧
    ∀ c ∈ (testSigner.sign
        "symbol=BTCUSDT&side=BUY&type=LIMIT&quantity=1&price=50000&timestamp=1234567890").data,
      c ∈ ("0123456789abcdef").data :=
  sign_deterministic_and_hex testSigner testSigner _ _ rfl rfl

/-- C3: on any parameter map (distinct keys, as a `HashMap` guarantees),
the output of `sign_request` carries exactly one `timestamp` key, exactly
one `signature` key, and the `timestamp` value is the freshly injected
epoch-millisecond time, overwriting any caller-supplied value. -/
theorem sign_request_timestamp_signature_once (s : Signer) (params : Params)
    (ts : Nat) (hn : (pkeys params).Nodup) :
    (pkeys (s.sign_request params ts)).count "timestamp" = 1 ∧
    (pkeys (s.sign_request params ts)).count "signature" = 1 ∧
    (s.sign_request params ts).lookup "timestamp" = some (toString ts) := by
  have hnP : (pkeys (hashInsert params "timestamp" (toString ts))).Nodup :=
    nodup_pkeys_hashInsert _ _ hn
  have hQP : (sortPairs (hashInsert params "timestamp" (toString ts))).Perm
      (hashInsert params "timestamp" (toString ts)) := sortPairs_perm _
  have hkQP : (pkeys (sortPairs (hashInsert params "timestamp" (toString ts)))).Perm
      (pkeys (hashInsert params "timestamp" (toString ts))) := hQP.map Prod.fst
  have hnQ : (pkeys (sortPairs (hashInsert params "timestamp" (toString ts)))).Nodup :=
    hkQP.nodup_iff.mpr hnP
  refine ⟨?_, ?_, ?_⟩
  · rw [sign_request_eq,
      count_pkeys_hashInsert_ne (by decide : "timestamp" ≠ "signature")]
    rw [hkQP.count_eq]
    exact List.count_eq_one_of_mem hnP (mem_pkeys_hashInsert _ _ _)
  · rw [sign_request_eq]
    exact List.count_eq_one_of_mem (nodup_pkeys_hashInsert _ _ hnQ)
      (mem_pkeys_hashInsert _ _ _)
  · rw [sign_request_eq,
      lookup_hashInsert_ne _ (by decide : "timestamp" ≠ "signature"),
      lookup_perm hQP hnQ]
    exact lookup_hashInsert_self _ _ _

/-- Witness for C3 on a map that already carries a stale caller-supplied
`timestamp`, which the fresh value 5 overwrites. -/
theorem sign_request_timestamp_signature_once_witness :
    (pkeys (testSigner.sign_request [("timestamp", "999"), ("symbol", "BTCUSDT")] 5)).count
        "timestamp" = 1 ∧
    (pkeys (testSigner.sign_request [("timestamp", "999"), ("symbol", "BTCUSDT")] 5)).count
        "signature" = 1 ∧
    (testSigner.sign_request [("timestamp", "999"), ("symbol", "BTCUSDT")] 5).lookup
        "timestamp" = some (toString 5) :=
  sign_request_timestamp_signature_once testSigner _ 5 (by decide)

/-- C4 (corrected), counterexample: when the caller already supplies a
`signature` parameter, that pair is part of the canonical string that gets
signed but is then overwritten in the output, so stripping the output's
`signature`, recanonicalizing and re-signing does not reproduce the
output's signature. -/
theorem sign_request_roundtrip_counterexample :
    (testSigner.sign_request [("signature", "x")] 0).lookup "signature" ≠
      some (testSigner.sign (canonicalQueryString
        (eraseKey (testSigner.sign_request [("signature", "x")] 0) "signature"))) := by
  decide

/-- C4 (amended): for every parameter map without a caller-supplied
`signature` field, removing `signature` from the signed
output, recanonicalizing the remaining fields and signing with the same
secret reproduces exactly the output's `signature` value. -/
theorem sign_request_roundtrip (s : Signer) (params : Params) (ts : Nat)
    (hsig : "signature" ∉ pkeys params) :
    (s.sign_request params ts).lookup "signature" =
      some (s.sign (canonicalQueryString
        (eraseKey (s.sign_request params ts) "signature"))) := by
  have hsP : "signature" ∉ pkeys (hashInsert params "timestamp" (toString ts)) := by
    by_cases hm : "timestamp" ∈ pkeys params
    · rw [pkeys_hashInsert_of_mem _ hm]; exact hsig
    · rw [hashInsert_of_not_mem _ hm, pkeys_append]
      simp only [List.mem_append]
      rintro (h | h)
      · exact hsig h
      · simp [pkeys] at h
  have hsQ : "signature" ∉
      pkeys (sortPairs (hashInsert params "timestamp" (toString ts))) :=
    fun h => hsP (((sortPairs_perm _).map Prod.fst).mem_iff.mp h)
  rw [sign_request_eq, lookup_hashInsert_self, hashInsert_of_not_mem _ hsQ,
    eraseKey_append_of_not_mem _ hsQ, canonicalQueryString, sortPairs_idem]

/-- Witness for C4's amended theorem at a concrete order request. -/
theorem sign_request_roundtrip_witness :
    (testSigner.sign_request [("symbol", "BTCUSDT"), ("side", "BUY")] 1234567890).lookup
        "signature" =
      some (testSigner.sign (canonicalQueryString
        (eraseKey (testSigner.sign_request [("symbol", "BTCUSDT"), ("side", "BUY")] 1234567890)
          "signature"))) :=
  sign_request_roundtrip testSigner _ 1234567890 (by decide)

/-- C5: on every endpoint and parameter set, each of the four signed call
shapes of a transport constructed without credentials returns the
`Authentication` error — the embedded functions return it in place of the
`HttpRequest` they would otherwise dispatch, so no request is built, no
network I/O happens, and the signer is never invoked — while
`get_public` ignores the credentials entirely: two clients with the same
base URL produce identical public GET requests whatever their signers. -/
theorem signed_requires_credentials_public_does_not
    (c c₁ c₂ : HttpClient) (endpoint ep : String) (params ps : Option Params)
    (ts : Nat) (h : c.signer = none) (hb : c₁.base_url = c₂.base_url) :
    c.get_signed endpoint params ts =
      .error (.Authentication "No credentials provided for signed request") ∧
    c.post_signed endpoint params ts =
      .error (.Authentication "No credentials provided for signed request") ∧
    c.put_signed endpoint params ts =
      .error (.Authentication "No credentials provided for signed request") ∧
    c.delete_signed endpoint params ts =
      .error (.Authentication "No credentials provided for signed request") ∧
    c₁.get_public ep ps = c₂.get_public ep ps := by
  obtain ⟨b, s⟩ := c
  cases h
  refine ⟨rfl, rfl, rfl, rfl, ?_⟩
  simp [HttpClient.get_public, hb]

/-- Witness for C5: the credential-less production client refuses all four
signed shapes, and public GET agrees between the credential-less client and
one holding credentials. -/
theorem signed_requires_credentials_public_does_not_witness :
    HttpClient.new.get_signed "/fapi/v1/account" none 5 =
      .error (.Authentication "No credentials provided for signed request") ∧
    HttpClient.new.post_signed "/fapi/v1/account" none 5 =
      .error (.Authentication "No credentials provided for signed request") ∧
    HttpClient.new.put_signed "/fapi/v1/account" none 5 =
      .error (.Authentication "No credentials provided for signed request") ∧
    HttpClient.new.delete_signed "/fapi/v1/account" none 5 =
      .error (.Authentication "No credentials provided for signed request") ∧
    HttpClient.new.get_public "/fapi/v1/ping" none =
      (HttpClient.new_with_credentials ⟨"test_api_key", "test_secret_key"⟩).get_public
        "/fapi/v1/ping" none :=
  signed_requires_credentials_public_does_not HttpClient.new HttpClient.new
    (HttpClient.new_with_credentials ⟨"test_api_key", "test_secret_key"⟩)
    "/fapi/v1/account" "/fapi/v1/ping" none none 5 rfl rfl

/-- C6: with the default 30-minute refresh interval, `needs_keepalive` is
false at the instant of a successful creation and equals, at any later
query instant, exactly "the refresh interval has elapsed since the
anchor"; `is_expired` is true whenever no anchor exists (no key was ever
created) and false at the instant of a successful creation or keepalive. -/
theorem listen_key_timing (m m' m'' : UserDataStreamManager) (key k : String)
    (t now now' : Nat)
    (hint : m.keepalive_interval = 30 * 60 * 1000)
    (hnone : m'.last_keepalive = none)
    (hkey : m''.listen_key = some k) :
    ((m.create_listen_key (.ok key) t).2.1.needs_keepalive t) = false ∧
    (∀ n, ((m.create_listen_key (.ok key) t).2.1.needs_keepalive n) =
      decide (30 * 60 * 1000 ≤ n - t)) ∧
    m'.is_expired now = true ∧
    ((m.create_listen_key (.ok key) t).2.1.is_expired t) = false ∧
    ((m''.keepalive_listen_key (.ok ()) now').2.1.is_expired now') = false := by
  refine ⟨?_, ?_, ?_, ?_, ?_⟩
  · simp [UserDataStreamManager.create_listen_key,
      UserDataStreamManager.needs_keepalive, hint]
  · intro n
    simp [UserDataStreamManager.create_listen_key,
      UserDataStreamManager.needs_keepalive, hint]
  · simp [UserDataStreamManager.is_expired, hnone]
  · simp [UserDataStreamManager.create_listen_key, UserDataStreamManager.is_expired]
  · simp [UserDataStreamManager.keepalive_listen_key, hkey,
      UserDataStreamManager.is_expired]

/-- Witness for C6 on the freshly constructed manager. -/
theorem listen_key_timing_witness :
    ((UserDataStreamManager.new.create_listen_key (.ok "lk") 100).2.1.needs_keepalive 100)
      = false ∧
    (∀ n, ((UserDataStreamManager.new.create_listen_key (.ok "lk") 100).2.1.needs_keepalive n)
      = decide (30 * 60 * 1000 ≤ n - 100)) ∧
    UserDataStreamManager.new.is_expired 100 = true ∧
    ((UserDataStreamManager.new.create_listen_key (.ok "lk") 100).2.1.is_expired 100)
      = false ∧
    ((((UserDataStreamManager.new.create_listen_key (.ok "lk") 100).2.1).keepalive_listen_key
        (.ok ()) 200).2.1.is_expired 200) = false :=
  listen_key_timing UserDataStreamManager.new UserDataStreamManager.new
    (UserDataStreamManager.new.create_listen_key (.ok "lk") 100).2.1
    "lk" "lk" 100 100 200 rfl rfl rfl

/-- C7: when the single keepalive transport call fails, the manager returns
exactly that error and its stored listen key and anchor are untouched; the
transport-call count 1 records that the one failed call is all the manager
performs — no retry, no recreation. -/
theorem keepalive_failure_is_atomic (m : UserDataStreamManager) (k : String)
    (e : BinanceError) (now : Nat) (h : m.listen_key = some k) :
    m.keepalive_listen_key (.error e) now = (.error e, m, 1) := by
  simp [UserDataStreamManager.keepalive_listen_key, h]

/-- Witness for C7: a timeout during keepalive leaves the freshly created
manager exactly as it was. -/
theorem keepalive_failure_is_atomic_witness :
    ((UserDataStreamManager.new.create_listen_key (.ok "lk") 100).2.1).keepalive_listen_key
        (.error .Timeout) 200 =
      (.error .Timeout, (UserDataStreamManager.new.create_listen_key (.ok "lk") 100).2.1, 1) :=
  keepalive_failure_is_atomic _ "lk" .Timeout 200 rfl

/-- C9: with more than one topic the combined-stream connection URL is the
construction-selected base (`wss://fstream.binance.com/ws/` in production,
`wss://stream.binancefuture.com/ws/` on the test network) followed by
`stream?streams=` and the `/`-joined topics, and the user-data connection
URL is that base followed by `ws/` and the listen key. -/
theorem websocket_connection_urls (topics : List String) (lk : String)
    (h : 1 < topics.length) :
    streamBuilderConnectUrl WebSocketClient.new topics =
      .ok ("wss://fstream.binance.com/ws/" ++ "stream?streams=" ++
        String.intercalate "/" topics) ∧
    streamBuilderConnectUrl WebSocketClient.testnet topics =
      .ok ("wss://stream.binancefuture.com/ws/" ++ "stream?streams=" ++
        String.intercalate "/" topics) ∧
    WebSocketClient.new.user_data_stream_url lk =
      "wss://fstream.binance.com/ws/" ++ "ws/" ++ lk ∧
    WebSocketClient.testnet.user_data_stream_url lk =
      "wss://stream.binancefuture.com/ws/" ++ "ws/" ++ lk := by
  have hne : topics.isEmpty = false := by
    cases topics with
    | nil => simp at h
    | cons a t => rfl
  have hlen : topics.length ≠ 1 := by omega
  refine ⟨?_, ?_, rfl, rfl⟩ <;>
    simp [streamBuilderConnectUrl, hne, hlen,
      WebSocketClient.connect_combined_stream_url, WebSocketClient.new,
      WebSocketClient.testnet, WS_BASE_URL, WS_TESTNET_URL]

/-- Witness for C9 with two topics. -/
theorem websocket_connection_urls_witness :
    streamBuilderConnectUrl WebSocketClient.new ["btcusdt@trade", "ethusdt@trade"] =
      .ok ("wss://fstream.binance.com/ws/" ++ "stream?streams=" ++
        String.intercalate "/" ["btcusdt@trade", "ethusdt@trade"]) ∧
    streamBuilderConnectUrl WebSocketClient.testnet ["btcusdt@trade", "ethusdt@trade"] =
      .ok ("wss://stream.binancefuture.com/ws/" ++ "stream?streams=" ++
        String.intercalate "/" ["btcusdt@trade", "ethusdt@trade"]) ∧
    WebSocketClient.new.user_data_stream_url "LKEY" =
      "wss://fstream.binance.com/ws/" ++ "ws/" ++ "LKEY" ∧
    WebSocketClient.testnet.user_data_stream_url "LKEY" =
      "wss://stream.binancefuture.com/ws/" ++ "ws/" ++ "LKEY" :=
  websocket_connection_urls ["btcusdt@trade", "ethusdt@trade"] "LKEY" (by decide)

/-- C10: keepalive and close on a manager with no stored listen key return
`BinanceError::Api` with code `-1` (not an `Authentication` or dedicated
state error), perform zero transport calls, and leave the manager
unchanged. -/
theorem absent_key_keepalive_close (m : UserDataStreamManager)
    (o o' : Except BinanceError Unit) (now now' : Nat)
    (h : m.listen_key = none) :
    m.keepalive_listen_key o now =
      (.error (.Api (-1) "No listen key available"), m, 0) ∧
    m.close_listen_key o' now' =
      (.error (.Api (-1) "No listen key to close"), m, 0) := by
  constructor
  · simp [UserDataStreamManager.keepalive_listen_key, h]
  · simp [UserDataStreamManager.close_listen_key, h]

/-- Witness for C10 on the freshly constructed manager, whatever the
transport would have answered. -/
theorem absent_key_keepalive_close_witness :
    UserDataStreamManager.new.keepalive_listen_key (.ok ()) 50 =
      (.error (.Api (-1) "No listen key available"), UserDataStreamManager.new, 0) ∧
    UserDataStreamManager.new.close_listen_key (.error .Timeout) 60 =
      (.error (.Api (-1) "No listen key to close"), UserDataStreamManager.new, 0) :=
  absent_key_keepalive_close UserDataStreamManager.new (.ok ()) (.error .Timeout) 50 60 rfl

/-- C8: `parse_message` dispatch order and totality.  With a `stream`
envelope the inner `data` payload is dispatched by substring match on the
stream name in the order `@depth`, `@trade`, `@kline`, `@ticker`, and an
unmatched name is an error; without an envelope, a string event-type field
`e` dispatches by its literal value over the six known events, an unknown
literal being an error; otherwise a `ping`/`pong` marker yields the
control message; and any remaining input yields the unrecognized-format
error — never a crash, `parse_message` being total. -/
theorem parse_message_dispatch (v d : Json) (name ev : String) :
    (jsonGet v "stream" = some (.str name) → jsonGet v "data" = some d →
      parse_message v = parse_stream_data name d) ∧
    (strContainsSub name "@depth" = true →
      parse_stream_data name d = (decodeDepthUpdate d).map .DepthUpdate) ∧
    (strContainsSub name "@depth" = false → strContainsSub name "@trade" = true →
      parse_stream_data name d = (decodeTradeStream d).map .Trade) ∧
    (strContainsSub name "@depth" = false → strContainsSub name "@trade" = false →
      strContainsSub name "@kline" = true →
      parse_stream_data name d = (decodeKlineStream d).map .Kline) ∧
    (strContainsSub name "@depth" = false → strContainsSub name "@trade" = false →
      strContainsSub name "@kline" = false → strContainsSub name "@ticker" = true →
      parse_stream_data name d = (decodeTickerStream d).map .Ticker) ∧
    (strContainsSub name "@depth" = false → strContainsSub name "@trade" = false →
      strContainsSub name "@kline" = false → strContainsSub name "@ticker" = false →
      parse_stream_data name d = .error (.WebSocket ("Unknown stream: " ++ name))) ∧
    (jsonGet v "stream" = none → jsonGet v "e" = some (.str ev) →
      parse_message v = parse_event_data ev v) ∧
    (parse_event_data "depthUpdate" v = (decodeDepthUpdate v).map .DepthUpdate) ∧
    (parse_event_data "trade" v = (decodeTradeStream v).map .Trade) ∧
    (parse_event_data "kline" v = (decodeKlineStream v).map .Kline) ∧
    (parse_event_data "24hrTicker" v = (decodeTickerStream v).map .Ticker) ∧
    (parse_event_data "ACCOUNT_UPDATE" v = (decodeAccountUpdate v).map .AccountUpdate) ∧
    (parse_event_data "ORDER_TRADE_UPDATE" v = (decodeOrderUpdate v).map .OrderUpdate) ∧
    (ev ∉ ["depthUpdate", "trade", "kline", "24hrTicker", "ACCOUNT_UPDATE",
        "ORDER_TRADE_UPDATE"] →
      parse_event_data ev v = .error (.WebSocket ("Unknown event type: " ++ ev))) ∧
    (jsonGet v "stream" = none → jsonGet v "e" >>= jsonAsStr = none →
      (jsonGet v "ping").isSome = true → parse_message v = .ok .Ping) ∧
    (jsonGet v "stream" = none → jsonGet v "e" >>= jsonAsStr = none →
      (jsonGet v "ping").isSome = false → (jsonGet v "pong").isSome = true →
      parse_message v = .ok .Pong) ∧
    (jsonGet v "stream" = none → jsonGet v "e" >>= jsonAsStr = none →
      (jsonGet v "ping").isSome = false → (jsonGet v "pong").isSome = false →
      parse_message v = .error (.WebSocket "Unknown message format")) := by
  refine ⟨?_, ?_, ?_, ?_, ?_, ?_, ?_, rfl, rfl, rfl, rfl, rfl, rfl, ?_, ?_, ?_, ?_⟩
  · intro h1 h2
    simp [parse_message, h1, h2, jsonAsStr]
  · intro h1
    simp [parse_stream_data, h1]
  · intro h1 h2
    simp [parse_stream_data, h1, h2]
  · intro h1 h2 h3
    simp [parse_stream_data, h1, h2, h3]
  · intro h1 h2 h3 h4
    simp [parse_stream_data, h1, h2, h3, h4]
  · intro h1 h2 h3 h4
    simp [parse_stream_data, h1, h2, h3, h4]
  · intro h1 h2
    simp [parse_message, h1, h2, jsonAsStr]
  · intro hev
    simp only [List.mem_cons, List.not_mem_nil, or_false, not_or] at hev
    obtain ⟨h1, h2, h3, h4, h5, h6⟩ := hev
    unfold parse_event_data
    split <;> simp_all
  · intro h1 h2 h3
    simp [parse_message, h1, h2, h3]
  · intro h1 h2 h3 h4
    simp [parse_message, h1, h2, h3, h4]
  · intro h1 h2 h3 h4
    simp [parse_message, h1, h2, h3, h4]

/-- Witness for C8: the repository's combined trade envelope, its
single-topic depth payload, a ping marker, and an empty object exercise
the envelope, event, control and fallthrough branches. -/
theorem parse_message_dispatch_witness :
    parse_message tradeEnvelopeJson = .ok (.Trade tradeMsgExpected) ∧
    parse_message depthMsgJson = .ok (.DepthUpdate depthMsgExpected) ∧
    parse_message (.obj [("ping", .num 1)]) = .ok .Ping ∧
    parse_message (.obj []) = .error (.WebSocket "Unknown message format") := by
  obtain ⟨a1, -, a3, -, -, -, -, -, -, -, -, -, -, -, -, -, -⟩ :=
    parse_message_dispatch tradeEnvelopeJson tradeMsgJson "btcusdt@trade" ""
  obtain ⟨-, -, -, -, -, -, b1, b2, -, -, -, -, -, -, -, -, -⟩ :=
    parse_message_dispatch depthMsgJson depthMsgJson "" "depthUpdate"
  obtain ⟨-, -, -, -, -, -, -, -, -, -, -, -, -, -, c1, -, -⟩ :=
    parse_message_dispatch (.obj [("ping", .num 1)]) .null "" ""
  obtain ⟨-, -, -, -, -, -, -, -, -, -, -, -, -, -, -, -, d1⟩ :=
    parse_message_dispatch (.obj []) .null "" ""
  refine ⟨?_, ?_, ?_, ?_⟩
  · rw [a1 rfl rfl, a3 rfl rfl]; rfl
  · rw [b1 rfl rfl, b2]; rfl
  · exact c1 rfl rfl rfl
  · exact d1 rfl rfl rfl rfl

end Binance
